import Mathlib

/-!
Verification of the AEGIS_CC purchasing workflow engine (SQL RPC layer).

This file shallowly embeds the plpgsql functions of the purchasing
migrations (PR/PO/Receipt lifecycle RPCs, the approval gate, the
numbering service, and the receipt-coverage view) as executable Lean
definitions, and proves or refutes the frozen specification claims
about them.

Modelling conventions:
  * SQL `numeric` is modelled as `ℚ`; nullable columns as `Option _`;
    `uuid` keys and timestamps as `Nat` identifiers.
  * Each mutating RPC acts on an explicit state record holding the row(s)
    it touches plus the append-only `status_logs` ledger; it returns
    `Except String state` mirroring `raise exception` / success.
  * The "PR % not found" branches are dropped: the state carries the row
    the RPC operates on, so the claim quantifies over existing rows.
-/

/-- The fixed role enumeration from the `profiles_role_check` constraint
(migration 0007). -/
inductive Role where
  | user | pm | superRole | ops | executive | accounting | shop
  | purchasing | admin | commandant
deriving DecidableEq

/-- PR lifecycle statuses (enum `pr_status`). -/
inductive PrStatus where
  | draft | submitted | approved | rejected | cancelled | fulfilled
deriving DecidableEq

/-- Render a `pr_status` value as its SQL text, as `status::text` does. -/
def PrStatus.text : PrStatus → String
  | .draft => "draft"
  | .submitted => "submitted"
  | .approved => "approved"
  | .rejected => "rejected"
  | .cancelled => "cancelled"
  | .fulfilled => "fulfilled"

/-- `profiles` as an association list from user id to role;
`lookupRole ps a` models `select role from profiles where id = a`. -/
def lookupRole : List (Nat × Role) → Nat → Option Role
  | [], _ => none
  | (a, r) :: rest, x => if x = a then some r else lookupRole rest x

/-- `assert_actor_exists` (migration 0005): the actor id must exist in
`profiles`. -/
def actorExists (profiles : List (Nat × Role)) (a : Nat) : Bool :=
  (lookupRole profiles a).isSome

/-- `get_pr_approval_threshold()` reads `app_config` key
`PR_APPROVAL_THRESHOLD`, seeded with value `1000` by migration 0009. -/
def get_pr_approval_threshold : ℚ := 1000

/-- `can_approve_pr(p_actor_id uuid, p_pr_total numeric)` from migration
0009 (the two-argument gate used by the final `approve_purchase_request`
and `reject_purchase_request`): looks up the actor's role, returns false
for an unknown actor; at or above the threshold only
executive/accounting/admin/commandant pass, below it ops also passes. -/
def can_approve_pr (profiles : List (Nat × Role)) (actor : Nat)
    (total : Option ℚ) : Bool :=
  match lookupRole profiles actor with
  | none => false
  | some r =>
    if total.getD 0 ≥ get_pr_approval_threshold then
      match r with
      | .executive | .accounting | .admin | .commandant => true
      | _ => false
    else
      match r with
      | .ops | .executive | .accounting | .admin | .commandant => true
      | _ => false

/-- `can_approve_pr(p_pr_id uuid)` from migration 0007 (the earlier
one-argument gate, hard-coded threshold 1000), applied to the caller's
role and the PR total it computes: at or above 1000 it still allows
`ops`, and below 1000 it also allows `purchasing`. -/
def can_approve_pr_0007 (role : Option Role) (total : ℚ) : Bool :=
  if total ≥ 1000 then
    match role with
    | some .ops | some .executive | some .accounting
    | some .admin | some .commandant => true
    | _ => false
  else
    match role with
    | some .purchasing | some .ops | some .executive | some .accounting
    | some .admin | some .commandant => true
    | _ => false

/-- The roles the specification allows below the threshold, minus
`purchasing` (which the operative gate rejects at any amount). -/
def lowTierRoles : List Role :=
  [.ops, .executive, .accounting, .admin, .commandant]

/-- The roles the specification allows at or above the threshold. -/
def highTierRoles : List Role :=
  [.executive, .accounting, .admin, .commandant]

/-! ### Numbering service: `next_pr_number` (migration 0009) -/

/-- Decimal digit characters of `n`, most significant first, mirroring
Postgres `n::text`. Fuel-based so it reduces computationally; callers
supply fuel `> n`. -/
def natDigitsAux : Nat → Nat → List Char
  | 0, _ => []
  | fuel + 1, n =>
    if n < 10 then [Nat.digitChar n]
    else natDigitsAux fuel (n / 10) ++ [Nat.digitChar (n % 10)]

/-- Decimal digit characters of `n`. -/
def natChars (n : Nat) : List Char := natDigitsAux (n + 1) n

/-- Decimal representation of `n` as a string (`n::text`). -/
def natStr (n : Nat) : String := (natChars n).asString

/-- Postgres `lpad(s, n, c)` on character lists: pad on the left to
length `n`, truncating (keeping the left part) when `s` is longer. -/
def lpadChars (l : List Char) (n : Nat) (c : Char) : List Char :=
  if n ≤ l.length then l.take n else List.replicate (n - l.length) c ++ l

/-- `pr_number_counters` as an association list year ↦ `last_seq`. -/
def lookupSeq : List (Nat × Nat) → Nat → Option Nat
  | [], _ => none
  | (y, s) :: rest, x => if x = y then some s else lookupSeq rest x

/-- Set the counter of `year` to `v` (the `update ... where year = v_year`
of `next_pr_number`). -/
def setSeq : List (Nat × Nat) → Nat → Nat → List (Nat × Nat)
  | [], _, _ => []
  | (y, s) :: rest, x, v =>
    if x = y then (y, v) :: rest else (y, s) :: setSeq rest x v

/-- Result of one `next_pr_number()` call: the sequence value taken, the
formatted document number, and the updated counter table. -/
structure PrNumberResult where
  seq : Nat
  number : String
  counters : List (Nat × Nat)
deriving DecidableEq

/-- `next_pr_number()` (migration 0009): insert `(year, 0)` on conflict
do nothing, then atomically increment `last_seq` and return
`'PR-' || year || '-' || lpad(seq, 4, '0')`. -/
def next_pr_number (counters : List (Nat × Nat)) (year : Nat) :
    PrNumberResult :=
  let cs := if (lookupSeq counters year).isSome then counters
            else counters ++ [(year, 0)]
  let v := (lookupSeq cs year).getD 0 + 1
  { seq := v
    number := "PR-" ++ natStr year ++ "-" ++ (lpadChars (natChars v) 4 '0').asString
    counters := setSeq cs year v }

/-- The specification's formatting of the sequence part: the decimal
numeral of `v` left-padded with zeros to 4 digits. -/
def zeroPad4 (v : Nat) : String :=
  (List.replicate (4 - (natChars v).length) '0' ++ natChars v).asString

/-! ### PR lifecycle state (purchasing schema of migrations 0005-0009) -/

/-- A `purchase_requests` row (the columns the lifecycle RPCs touch). -/
structure PurchaseRequest where
  pr_number : String
  status : PrStatus
  project_id : Nat
  requested_by : Option Nat
  approved_by : Option Nat
  approved_at : Option Nat
  needed_by_date : Option Nat
  priority : Option String
  notes : Option String
  updated_by : Option Nat
  updated_at : Option Nat
deriving DecidableEq

/-- A `purchase_request_lines` row. -/
structure PurchaseRequestLine where
  id : Nat
  catalog_item_id : Option Nat
  description : String
  qty : ℚ
  uom : Option String
  est_unit_cost : Option ℚ
  sov_item_id : Option Nat
  timeline_task_id : Option Nat
  sort_order : Int
  is_active : Bool
  updated_by : Option Nat
deriving DecidableEq

/-- A `status_logs` row as written by `insert_status_log`. -/
structure StatusLog where
  entity_type : String
  from_status : Option String
  to_status : Option String
  message : String
deriving DecidableEq

/-- The state one PR lifecycle RPC operates on: the profiles table, the
PR-number counters, the single `purchase_requests` row named by
`p_pr_id`, its lines, and the append-only status log. -/
structure PrDb where
  profiles : List (Nat × Role)
  counters : List (Nat × Nat)
  pr : PurchaseRequest
  lines : List PurchaseRequestLine
  logs : List StatusLog
  next_line_id : Nat
deriving DecidableEq

/-- Modelled from the spec: the `est_ext_cost` generated column of
`purchase_request_lines` (its DDL migration is not under src/); the spec
says "extended cost = quantity × estimated unit cost". -/
def est_ext_cost (l : PurchaseRequestLine) : Option ℚ :=
  l.est_unit_cost.map (fun c => l.qty * c)

/-- `pr_est_total` (migration 0009): `coalesce(sum(coalesce(est_ext_cost,
0)), 0)` over the PR's active lines. -/
def pr_est_total (db : PrDb) : ℚ :=
  (db.lines.filter (fun l => l.is_active)).foldr
    (fun l acc => (est_ext_cost l).getD 0 + acc) 0

/-- SQL `coalesce(new, old)` for a nullable assignment. -/
def coalesceO {α : Type} (new old : Option α) : Option α :=
  match new with
  | some x => some x
  | none => old

/-- Append one `insert_status_log` entry. -/
def appendLog (db : PrDb) (e : StatusLog) : PrDb :=
  { db with logs := db.logs ++ [e] }

/-- The audit entry `update_purchase_request_header` writes when it
resets an approval. -/
def headerResetLog : StatusLog :=
  { entity_type := "purchase_request", from_status := some "approved",
    to_status := some "submitted",
    message := "Approval reset due to PR header change" }

/-- The audit entry `upsert_purchase_request_line` writes when it resets
an approval. -/
def lineResetLog : StatusLog :=
  { entity_type := "purchase_request", from_status := some "approved",
    to_status := some "submitted",
    message := "Approval reset due to PR line change" }

/-- Reset an approval on the in-memory PR row: status back to submitted,
approver fields cleared, audit attribution updated. -/
def resetApproval (pr : PurchaseRequest) (p_actor_id now : Nat) :
    PurchaseRequest :=
  { pr with
    status := .submitted
    approved_by := none
    approved_at := none
    updated_by := some p_actor_id
    updated_at := some now }

/-- `create_purchase_request` (migration 0009): asserts the actor,
requires a project id, draws a PR number, and inserts a draft PR with no
approver and a "PR created" log entry. -/
def create_purchase_request (profiles : List (Nat × Role))
    (counters : List (Nat × Nat)) (p_project_id : Option Nat)
    (p_actor_id now year : Nat) (p_needed_by_date : Option Nat)
    (p_priority p_notes : Option String) : Except String PrDb :=
  if ¬ actorExists profiles p_actor_id then
    .error "actor_id does not exist in profiles"
  else
    match p_project_id with
    | none => .error "project_id is required"
    | some proj =>
      let r := next_pr_number counters year
      .ok { profiles := profiles, counters := r.counters,
            pr := { pr_number := r.number, status := .draft,
                    project_id := proj, requested_by := some p_actor_id,
                    approved_by := none, approved_at := none,
                    needed_by_date := p_needed_by_date,
                    priority := p_priority, notes := p_notes,
                    updated_by := some p_actor_id, updated_at := some now },
            lines := [],
            logs := [{ entity_type := "purchase_request",
                       from_status := none, to_status := some "draft",
                       message := "PR created" }],
            next_line_id := 0 }

/-- The `v_reset` computation of `update_purchase_request_header`
(migration 0009): a header field counts as changed when the parameter is
non-null and `is distinct from` the stored value. -/
def headerChanged (db : PrDb) (p_needed_by_date : Option Nat)
    (p_priority p_notes : Option String) : Bool :=
  (p_needed_by_date.isSome && decide (p_needed_by_date ≠ db.pr.needed_by_date)) ||
  (p_priority.isSome && decide (p_priority ≠ db.pr.priority)) ||
  (p_notes.isSome && decide (p_notes ≠ db.pr.notes))

/-- The `coalesce(param, old)` update of the PR header row. -/
def headerUpdatedPr (db : PrDb) (p_actor_id now : Nat)
    (p_needed_by_date : Option Nat) (p_priority p_notes : Option String) :
    PurchaseRequest :=
  { db.pr with
    needed_by_date := coalesceO p_needed_by_date db.pr.needed_by_date
    priority := coalesceO p_priority db.pr.priority
    notes := coalesceO p_notes db.pr.notes
    updated_by := some p_actor_id
    updated_at := some now }

/-- The unconditional "PR header updated" audit entry. -/
def headerUpdatedLog : StatusLog :=
  { entity_type := "purchase_request", from_status := none,
    to_status := none, message := "PR header updated" }

/-- `update_purchase_request_header` (migration 0009): editable only in
draft/submitted/approved; applies `coalesce(param, old)` to the three
header fields; if the PR was approved and a supplied field differed from
the stored value, resets the approval (status back to submitted, approver
fields cleared) with its own audit entry; always logs "PR header
updated". -/
def update_purchase_request_header (db : PrDb) (p_actor_id now : Nat)
    (p_needed_by_date : Option Nat) (p_priority p_notes : Option String) :
    Except String PrDb :=
  if ¬ actorExists db.profiles p_actor_id then
    .error "actor_id does not exist in profiles"
  else if ¬ (db.pr.status = .draft ∨ db.pr.status = .submitted ∨
             db.pr.status = .approved) then
    .error "PR cannot be edited in this status"
  else if db.pr.status = .approved ∧
      headerChanged db p_needed_by_date p_priority p_notes = true then
    .ok (appendLog
      (appendLog
        { db with pr := (resetApproval
            (headerUpdatedPr db p_actor_id now p_needed_by_date p_priority
              p_notes) p_actor_id now) }
        headerResetLog)
      headerUpdatedLog)
  else
    .ok (appendLog
      { db with pr := (headerUpdatedPr db p_actor_id now p_needed_by_date
          p_priority p_notes) }
      headerUpdatedLog)

/-- The trailing block of `upsert_purchase_request_line` (migration
0009): if the PR row read at the start was approved, any line edit resets
the approval and logs it. -/
def applyLineResetIfApproved (origStatus : PrStatus) (db : PrDb)
    (p_actor_id now : Nat) : PrDb :=
  if origStatus = .approved then
    appendLog { db with pr := resetApproval db.pr p_actor_id now }
      lineResetLog
  else db

/-- The field assignments of the `update purchase_request_lines` branch
of `upsert_purchase_request_line` (migration 0009): direct assignment
from the parameters for everything except `sort_order` and `is_active`,
which coalesce to the stored value. -/
def updatedPrLine (l : PurchaseRequestLine) (p_actor_id : Nat)
    (p_catalog_item_id : Option Nat) (d : String) (q : ℚ)
    (p_uom : Option String) (p_est_unit_cost : Option ℚ)
    (p_sov_item_id p_timeline_task_id : Option Nat)
    (p_sort_order : Option Int) (p_is_active : Option Bool) :
    PurchaseRequestLine :=
  { l with
    catalog_item_id := p_catalog_item_id
    description := d
    qty := q
    uom := p_uom
    est_unit_cost := p_est_unit_cost
    sov_item_id := p_sov_item_id
    timeline_task_id := p_timeline_task_id
    sort_order := p_sort_order.getD l.sort_order
    is_active := p_is_active.getD l.is_active
    updated_by := some p_actor_id }

/-- SQL `btrim(s)`: strip leading and trailing whitespace. -/
def btrim (s : String) : String :=
  ((s.toList.dropWhile Char.isWhitespace).reverse.dropWhile
    Char.isWhitespace).reverse.asString

/-- The `v_exists` check of `upsert_purchase_request_line`: `p_id` is
non-null and names a line of this PR. -/
def lineExistsFor (lines : List PurchaseRequestLine) (p_id : Option Nat) :
    Bool :=
  match p_id with
  | some i => lines.any (fun l => l.id == i)
  | none => false

/-- The "PR line updated" audit entry. -/
def lineUpdatedLog : StatusLog :=
  { entity_type := "purchase_request_line", from_status := none,
    to_status := none, message := "PR line updated" }

/-- The "PR line created" audit entry. -/
def lineCreatedLog : StatusLog :=
  { entity_type := "purchase_request_line", from_status := none,
    to_status := none, message := "PR line created" }

/-- `upsert_purchase_request_line` (migration 0009): editable only in
draft/submitted/approved; requires a non-blank description and a non-null
qty; updates the line when `p_id` names an existing line of this PR,
otherwise inserts a new line; logs the line change; finally resets the
approval if the PR was approved. -/
def upsert_purchase_request_line (db : PrDb) (p_actor_id now : Nat)
    (p_id : Option Nat) (p_catalog_item_id : Option Nat)
    (p_description : Option String) (p_qty : Option ℚ)
    (p_uom : Option String) (p_est_unit_cost : Option ℚ)
    (p_sov_item_id p_timeline_task_id : Option Nat)
    (p_sort_order : Option Int) (p_is_active : Option Bool) :
    Except String PrDb :=
  if ¬ actorExists db.profiles p_actor_id then
    .error "actor_id does not exist in profiles"
  else if ¬ (db.pr.status = .draft ∨ db.pr.status = .submitted ∨
             db.pr.status = .approved) then
    .error "PR lines cannot be edited in this status"
  else
    match p_description with
    | none => .error "Line description is required"
    | some d =>
      if btrim d = "" then .error "Line description is required"
      else
        match p_qty with
        | none => .error "qty is required"
        | some q =>
          if lineExistsFor db.lines p_id then
            .ok (applyLineResetIfApproved db.pr.status
              (appendLog
                { db with lines := db.lines.map (fun l =>
                    if l.id == p_id.getD 0 then
                      updatedPrLine l p_actor_id p_catalog_item_id d q p_uom
                        p_est_unit_cost p_sov_item_id p_timeline_task_id
                        p_sort_order p_is_active
                    else l) }
                lineUpdatedLog)
              p_actor_id now)
          else
            .ok (applyLineResetIfApproved db.pr.status
              (appendLog
                { db with
                  lines := db.lines ++
                    [{ id := db.next_line_id,
                       catalog_item_id := p_catalog_item_id,
                       description := d, qty := q, uom := p_uom,
                       est_unit_cost := p_est_unit_cost,
                       sov_item_id := p_sov_item_id,
                       timeline_task_id := p_timeline_task_id,
                       sort_order := p_sort_order.getD 0,
                       is_active := p_is_active.getD true,
                       updated_by := some p_actor_id }]
                  next_line_id := db.next_line_id + 1 }
                lineCreatedLog)
              p_actor_id now)

/-- `submit_purchase_request` (migration 0009): from draft, transitions
to submitted with a log entry; when already submitted, returns the row
unchanged with no update and no log entry; any other status raises. -/
def submit_purchase_request (db : PrDb) (p_actor_id now : Nat)
    (p_message : Option String) : Except String PrDb :=
  if ¬ actorExists db.profiles p_actor_id then
    .error "actor_id does not exist in profiles"
  else if db.pr.status = .draft then
    .ok (appendLog
      { db with pr :=
        { db.pr with
          status := .submitted
          updated_by := some p_actor_id
          updated_at := some now } }
      { entity_type := "purchase_request", from_status := some "draft",
        to_status := some "submitted",
        message := p_message.getD "PR submitted" })
  else if db.pr.status = .submitted then
    .ok db
  else
    .error "PR cannot be submitted from this status"

/-- `approve_purchase_request` (migration 0009): requires submitted,
computes the estimated total, requires the `can_approve_pr` gate, then
stamps status/approver/timestamp and logs. -/
def approve_purchase_request (db : PrDb) (p_actor_id now : Nat)
    (p_message : Option String) : Except String PrDb :=
  if ¬ actorExists db.profiles p_actor_id then
    .error "actor_id does not exist in profiles"
  else if ¬ db.pr.status = .submitted then
    .error "PR must be submitted before approval"
  else if ¬ can_approve_pr db.profiles p_actor_id (some (pr_est_total db)) then
    .error "Not authorized to approve PR"
  else
    .ok (appendLog
      { db with pr :=
        { db.pr with
          status := .approved
          approved_by := some p_actor_id
          approved_at := some now
          updated_by := some p_actor_id
          updated_at := some now } }
      { entity_type := "purchase_request", from_status := some "submitted",
        to_status := some "approved",
        message := p_message.getD "PR approved" })

/-- `reject_purchase_request` (migration 0009): requires
submitted/approved and the same approver gate; sets rejected and clears
the approver fields, then logs. -/
def reject_purchase_request (db : PrDb) (p_actor_id now : Nat)
    (p_message : Option String) : Except String PrDb :=
  if ¬ actorExists db.profiles p_actor_id then
    .error "actor_id does not exist in profiles"
  else if ¬ (db.pr.status = .submitted ∨ db.pr.status = .approved) then
    .error "PR cannot be rejected from this status"
  else if ¬ can_approve_pr db.profiles p_actor_id (some (pr_est_total db)) then
    .error "Not authorized to reject PR"
  else
    .ok (appendLog
      { db with pr :=
        { db.pr with
          status := .rejected
          approved_by := none
          approved_at := none
          updated_by := some p_actor_id
          updated_at := some now } }
      { entity_type := "purchase_request",
        from_status := some db.pr.status.text, to_status := some "rejected",
        message := p_message.getD "PR rejected" })

/-- The combined `approve_purchase_request(p_pr_id, p_actor_id,
p_approve, p_message)` of migration 0005 (src/unnamed/part_000, 3E):
requires submitted; sets the target status from the flag but stamps
`approved_by`/`approved_at` with the acting user in BOTH branches,
including rejection. -/
def approve_purchase_request_0005 (db : PrDb) (p_actor_id now : Nat)
    (p_approve : Bool) (p_message : Option String) : Except String PrDb :=
  if ¬ actorExists db.profiles p_actor_id then
    .error "actor_id does not exist in profiles"
  else if ¬ db.pr.status = .submitted then
    .error "Only submitted PRs can be approved or rejected"
  else
    let toStatus : PrStatus := if p_approve then .approved else .rejected
    .ok (appendLog
      { db with pr :=
        { db.pr with
          status := toStatus
          approved_by := some p_actor_id
          approved_at := some now
          updated_by := some p_actor_id
          updated_at := some now } }
      { entity_type := "purchase_request", from_status := some "submitted",
        to_status := some toStatus.text,
        message := p_message.getD
          (if p_approve then "PR approved" else "PR rejected") })

/-- `submit_purchase_request` of migration 0005 (src/unnamed/part_000,
3D): requires draft and at least one active line, then transitions to
submitted with a log entry. -/
def submit_purchase_request_0005 (db : PrDb) (p_actor_id now : Nat)
    (p_message : Option String) : Except String PrDb :=
  if ¬ actorExists db.profiles p_actor_id then
    .error "actor_id does not exist in profiles"
  else if ¬ db.pr.status = .draft then
    .error "Only draft PRs can be submitted"
  else if (db.lines.filter (fun l => l.is_active)).length = 0 then
    .error "Cannot submit PR with zero lines"
  else
    .ok (appendLog
      { db with pr :=
        { db.pr with
          status := .submitted
          updated_by := some p_actor_id
          updated_at := some now } }
      { entity_type := "purchase_request", from_status := some "draft",
        to_status := some "submitted",
        message := p_message.getD "PR submitted" })

/-- Project an `Except` result to its success state. -/
def exceptOk {α : Type} (e : Except String α) : Option α :=
  match e with
  | .ok a => some a
  | .error _ => none

/-- The approval-field invariant of the specification: the approver is
recorded exactly on approved PRs, and approver/approval-timestamp are
set and cleared together. -/
def prApprovalInvariant (pr : PurchaseRequest) : Prop :=
  (pr.approved_by ≠ none ↔ pr.status = .approved) ∧
  (pr.approved_by = none ↔ pr.approved_at = none)

/-! ### Second-generation PR schema (migrations 0013-0021): the
`rpc_pr_*` family used by the frontend -/

/-- A `purchase_requests` row of the second-generation schema
(`title`/`need_by`, `submitted_at`, PO linkage columns of 0020). -/
structure Pr2 where
  id : Nat
  title : String
  status : PrStatus
  created_by : Nat
  submitted_at : Option Nat
  po_id : Option Nat
  converted_at : Option Nat
  converted_by : Option Nat
deriving DecidableEq

/-- A `purchase_request_lines` row of the second-generation schema
(`pr_id`/`item_name`/`unit_cost`; it has no `is_active` flag). -/
structure Pr2Line where
  id : Nat
  item_name : String
  qty : ℚ
  unit : Option String
  unit_cost : ℚ
  vendor_id : Option Nat
  notes : Option String
deriving DecidableEq

/-- PO lifecycle statuses (enum `po_status`). -/
inductive PoStatus where
  | draft | issued | acknowledged | partially_received | received
  | closed | cancelled
deriving DecidableEq

/-- A `purchase_orders` row as created by `rpc_pr_convert_to_po`. -/
structure Po where
  id : Nat
  vendor_id : Nat
  ship_to : Option String
  notes : Option String
  status : PoStatus
  source_pr_id : Option Nat
  created_by : Nat
deriving DecidableEq

/-- A `purchase_order_lines` row as created by `rpc_pr_convert_to_po`. -/
structure PoLine where
  po_id : Nat
  item_name : String
  qty : ℚ
  unit : Option String
  unit_cost : ℚ
  notes : Option String
  source_pr_line_id : Option Nat
deriving DecidableEq

/-- The state a `rpc_pr_*` call operates on: the PR row named by
`p_pr_id`, its lines, and the PO tables the conversion writes. -/
structure Pr2Db where
  pr : Pr2
  lines : List Pr2Line
  pos : List Po
  po_lines : List PoLine
  next_po_id : Nat
deriving DecidableEq

/-- `rpc_pr_submit` (migration 0017): requires a draft PR, the creator
or a purchasing_admin, and at least one line; then sets
submitted/submitted_at. -/
def rpc_pr_submit (db : Pr2Db) (uid now : Nat) (is_admin : Bool) :
    Except String Pr2Db :=
  if ¬ db.pr.status = .draft then
    .error "Only draft PRs can be submitted"
  else if db.pr.created_by ≠ uid ∧ ¬ is_admin = true then
    .error "Not allowed"
  else if db.lines.length < 1 then
    .error "Add at least one line before submitting"
  else
    .ok { db with pr :=
      { db.pr with
        status := .submitted
        submitted_at := some now } }

/-- `rpc_pr_convert_to_po` (migration 0021, bundled in
0003_read_models_views.sql): requires purchasing_admin or
purchasing_approver, an approved PR with no existing PO link, a vendor,
and at least one line; creates a draft PO, copies every PR line into a
PO line carrying `source_pr_line_id`, and links the PR to the PO. -/
def rpc_pr_convert_to_po (db : Pr2Db) (uid now : Nat)
    (is_admin is_approver : Bool) (p_vendor_id : Option Nat)
    (p_ship_to p_notes : Option String) : Except String (Nat × Pr2Db) :=
  if ¬ (is_admin = true ∨ is_approver = true) then
    .error "Not allowed"
  else if ¬ db.pr.status = .approved then
    .error "PR must be approved to convert to PO"
  else if ¬ db.pr.po_id = none then
    .error "PR already converted to PO"
  else
    match p_vendor_id with
    | none => .error "Vendor is required"
    | some v =>
      if db.lines.length < 1 then
        .error "PR has no lines"
      else
        .ok (db.next_po_id,
          { db with
            pr :=
              { db.pr with
                po_id := some db.next_po_id
                converted_at := some now
                converted_by := some uid }
            pos := db.pos ++
              [{ id := db.next_po_id, vendor_id := v, ship_to := p_ship_to,
                 notes := p_notes, status := .draft,
                 source_pr_id := some db.pr.id, created_by := uid }]
            po_lines := db.po_lines ++ db.lines.map (fun l =>
              { po_id := db.next_po_id, item_name := l.item_name,
                qty := l.qty, unit := l.unit, unit_cost := l.unit_cost,
                notes := l.notes, source_pr_line_id := some l.id })
            next_po_id := db.next_po_id + 1 })

/-! ### Receipt lifecycle (migrations 0005 and 0007) -/

/-- Receipt lifecycle statuses (enum `receipt_status`). -/
inductive ReceiptStatus where
  | pending | received | reconciled | cancelled
deriving DecidableEq

/-- Render a `receipt_status` value as its SQL text. -/
def ReceiptStatus.text : ReceiptStatus → String
  | .pending => "pending"
  | .received => "received"
  | .reconciled => "reconciled"
  | .cancelled => "cancelled"

/-- A `receipts` row (the columns the lifecycle RPCs touch). -/
structure Receipt where
  receipt_number : String
  status : ReceiptStatus
  received_at : Option Nat
  received_by : Option Nat
  location : Option String
  notes : Option String
deriving DecidableEq

/-- A `receipt_lines` row (PO-line link and received quantity). -/
structure ReceiptLine where
  id : Nat
  purchase_order_line_id : Option Nat
  qty_received : ℚ
deriving DecidableEq

/-- The state a receipt RPC operates on. -/
structure ReceiptDb where
  profiles : List (Nat × Role)
  r : Receipt
  lines : List ReceiptLine
  logs : List StatusLog
deriving DecidableEq

/-- `can_receive()` (migration 0007): shop, super, ops, admin,
commandant. -/
def can_receive (role : Option Role) : Bool :=
  match role with
  | some .shop | some .superRole | some .ops | some .admin
  | some .commandant => true
  | _ => false

/-- The count of receipt lines with no PO-line link ("unlinked"). -/
def countUnlinked (lines : List ReceiptLine) : Nat :=
  (lines.filter (fun l => l.purchase_order_line_id.isNone)).length

/-- `mark_receipt_received` (migration 0007): requires `can_receive` for
the calling user and an existing actor; rejects cancelled receipts;
counts the unlinked lines and sets status `received` when any remain,
`reconciled` otherwise; assigns `received_at`/`received_by`
unconditionally on every call; logs the transition. -/
def mark_receipt_received (db : ReceiptDb) (uid p_actor_id now : Nat)
    (p_message : Option String) : Except String ReceiptDb :=
  if ¬ actorExists db.profiles p_actor_id then
    .error "actor_id does not exist in profiles"
  else if ¬ can_receive (lookupRole db.profiles uid) then
    .error "Only shop, super, ops, admin, commandant can mark receipts received"
  else if db.r.status = .cancelled then
    .error "Receipt is cancelled"
  else
    let unlinked := countUnlinked db.lines
    let newStatus : ReceiptStatus :=
      if unlinked > 0 then .received else .reconciled
    .ok { db with
      r :=
        { db.r with
          status := newStatus
          received_at := some now
          received_by := some p_actor_id }
      logs := db.logs ++
        [{ entity_type := "receipt", from_status := some db.r.status.text,
           to_status := some newStatus.text,
           message := p_message.getD "Receipt marked received" }] }

/-- `set_receipt_status` (migration 0005, src/unnamed/part_000, 3K): a
generic transition that stamps `received_at`/`received_by` only when the
new status is `received` AND the field is still null (first transition
only), otherwise keeps the stored value; logs the transition. -/
def set_receipt_status (db : ReceiptDb) (p_new_status : ReceiptStatus)
    (p_actor_id now : Nat) (p_message : Option String) :
    Except String ReceiptDb :=
  if ¬ actorExists db.profiles p_actor_id then
    .error "actor_id does not exist in profiles"
  else
    .ok { db with
      r :=
        { db.r with
          status := p_new_status
          received_at :=
            if p_new_status = .received ∧ db.r.received_at = none
            then some now else db.r.received_at
          received_by :=
            if p_new_status = .received ∧ db.r.received_by = none
            then some p_actor_id else db.r.received_by }
      logs := db.logs ++
        [{ entity_type := "receipt", from_status := some db.r.status.text,
           to_status := some p_new_status.text,
           message := p_message.getD "Receipt status updated" }] }

/-- `create_receipt` (migration 0007): requires `can_receive` and an
existing actor; inserts a `pending` receipt whose `received_by` column is
already populated with the acting user (the insert lists `received_by :=
p_actor_id`), while `received_at` stays null. The receipt number is
drawn from `receipt_number_seq` outside this model and passed in. -/
def create_receipt_0007 (profiles : List (Nat × Role))
    (uid p_actor_id : Nat) (number : String)
    (p_location p_notes : Option String) : Except String ReceiptDb :=
  if ¬ actorExists profiles p_actor_id then
    .error "actor_id does not exist in profiles"
  else if ¬ can_receive (lookupRole profiles uid) then
    .error "Only shop, super, ops, admin, commandant can create receipts"
  else
    .ok { profiles := profiles,
          r := { receipt_number := number, status := .pending,
                 received_at := none, received_by := some p_actor_id,
                 location := p_location, notes := p_notes },
          lines := [],
          logs := [{ entity_type := "receipt", from_status := none,
                     to_status := some "pending",
                     message := "Receipt created" }] }

/-! ### Coverage view `v_po_line_receipt_coverage` (migration 0006) -/

/-- A receipt line joined with its receipt's status, as the coverage view
sees it. -/
structure CoverageReceiptLine where
  qty_received : ℚ
  receipt_status : ReceiptStatus
deriving DecidableEq

/-- `coalesce(sum(rl.qty_received) filter (where r.status <>
'cancelled'), 0)`: the received total over lines of non-cancelled
receipts. -/
def qty_received_total (rls : List CoverageReceiptLine) : ℚ :=
  (rls.filter (fun rl =>
    decide (rl.receipt_status ≠ ReceiptStatus.cancelled))).foldr
    (fun rl acc => rl.qty_received + acc) 0

/-- `greatest(coalesce(pol.qty, 0) - received_total, 0)`. -/
def qty_open_remaining (qty : Option ℚ) (rls : List CoverageReceiptLine) :
    ℚ :=
  max (qty.getD 0 - qty_received_total rls) 0

/-- The `receipt_coverage` case expression of the view. -/
def receipt_coverage (qty : Option ℚ) (rls : List CoverageReceiptLine) :
    String :=
  if qty.getD 0 ≤ 0 then "unknown"
  else if qty_received_total rls ≤ 0 then "not_received"
  else if qty_received_total rls < qty.getD 0 then "partial"
  else "received"

/-- A concrete approved PR state used to evaluate the approval-reset
contract. -/
def c2WitnessDb : PrDb :=
  { profiles := [(7, Role.ops), (9, Role.executive)], counters := [],
    pr := { pr_number := "PR-2024-0003", status := .approved,
            project_id := 1, requested_by := some 7, approved_by := some 9,
            approved_at := some 4, needed_by_date := none, priority := none,
            notes := none, updated_by := some 9, updated_at := some 4 },
    lines := [], logs := [], next_line_id := 0 }

/-- The state after inserting a line into the approved `c2WitnessDb`. -/
def c2LineResult : PrDb :=
  (exceptOk (upsert_purchase_request_line c2WitnessDb 9 5 none none
    (some "bolts") (some 3) none none none none (some 0) (some true))).getD
    c2WitnessDb

/-- The state after changing the needed-by date of the approved
`c2WitnessDb`. -/
def c2HeaderResult : PrDb :=
  (exceptOk (update_purchase_request_header c2WitnessDb 9 5 (some 12) none
    none)).getD c2WitnessDb

/-- A concrete submitted PR (invariant holding) used to exercise the
legacy combined approve/reject RPC. -/
def c3CexDb : PrDb :=
  { profiles := [(4, Role.ops)], counters := [],
    pr := { pr_number := "PR-2024-0004", status := .submitted,
            project_id := 1, requested_by := some 4, approved_by := none,
            approved_at := none, needed_by_date := none, priority := none,
            notes := none, updated_by := some 4, updated_at := some 1 },
    lines := [], logs := [], next_line_id := 0 }

/-- A concrete submitted PR for exercising the final approve RPC. -/
def c3WitnessDb : PrDb :=
  { profiles := [(4, Role.ops)], counters := [],
    pr := { pr_number := "PR-2024-0005", status := .submitted,
            project_id := 1, requested_by := some 4, approved_by := none,
            approved_at := none, needed_by_date := none, priority := none,
            notes := none, updated_by := some 4, updated_at := some 1 },
    lines := [], logs := [], next_line_id := 0 }

/-- A concrete draft PR with one line whose `est_unit_cost` is stored as
5, used to show the line upsert clears it when passed null. -/
def c10CexDb : PrDb :=
  { profiles := [(3, Role.pm)], counters := [],
    pr := { pr_number := "PR-2024-0006", status := .draft, project_id := 1,
            requested_by := some 3, approved_by := none, approved_at := none,
            needed_by_date := some 20, priority := some "high",
            notes := some "rush", updated_by := some 3, updated_at := some 1 },
    lines := [{ id := 1, catalog_item_id := none, description := "pipe",
                qty := 2, uom := some "ea", est_unit_cost := some 5,
                sov_item_id := none, timeline_task_id := none,
                sort_order := 0, is_active := true, updated_by := some 3 }],
    logs := [], next_line_id := 2 }

/-- A concrete approved, unconverted PR with two lines. -/
def c5WitnessDb : Pr2Db :=
  { pr := { id := 21, title := "Steel PR", status := .approved,
            created_by := 4, submitted_at := some 2, po_id := none,
            converted_at := none, converted_by := none },
    lines := [{ id := 31, item_name := "beam", qty := 2, unit := some "ea",
                unit_cost := 100, vendor_id := none, notes := none },
              { id := 32, item_name := "plate", qty := 5, unit := some "ea",
                unit_cost := 40, vendor_id := none, notes := none }],
    pos := [], po_lines := [], next_po_id := 1 }

/-- The PO id and state produced by converting `c5WitnessDb`. -/
def c5Converted : Nat × Pr2Db :=
  (exceptOk (rpc_pr_convert_to_po c5WitnessDb 4 10 true false (some 7) none
    none)).getD (0, c5WitnessDb)

/-- A receipt already stamped received (by user 1 at time 10), with no
lines, used to show `mark_receipt_received` overwrites the stamps. -/
def c7CexDb : ReceiptDb :=
  { profiles := [(1, Role.shop), (2, Role.shop)],
    r := { receipt_number := "RCV-20240101-00001", status := .received,
           received_at := some 10, received_by := some 1, location := none,
           notes := none },
    lines := [], logs := [] }

/-- A pending receipt with one unlinked line, for the mark-received
witness. -/
def c7WitnessDb : ReceiptDb :=
  { profiles := [(2, Role.shop)],
    r := { receipt_number := "RCV-20240101-00002", status := .pending,
           received_at := none, received_by := none, location := none,
           notes := none },
    lines := [{ id := 1, purchase_order_line_id := none, qty_received := 3 }],
    logs := [] }

-- =====  Theorems  =====

/-- Claim C1 (counterexample): the claim says the gate returns true below
the 1000 threshold for role `purchasing`, but the operative two-argument
`can_approve_pr` returns false for a purchasing actor with total
999.99. -/
theorem c1_purchasing_below_threshold_denied :
    can_approve_pr [(0, Role.purchasing)] 0 (some (99999 / 100)) = false := by
  have h : ¬ ((99999 / 100 : ℚ) ≥ 1000) := by norm_num
  simp [can_approve_pr, lookupRole, get_pr_approval_threshold, h]

/-- Claim C1 (amended): below the 1000 threshold the operative
`can_approve_pr` gate accepts exactly ops/executive/accounting/admin/
commandant (not purchasing), and at or above it exactly
executive/accounting/admin/commandant; in particular ops passes at
999.99, and at 1000.00 ops is denied while executive passes. -/
theorem c1_can_approve_pr_tiers :
    (∀ (r : Role) (t : ℚ), t < 1000 →
      (can_approve_pr [(0, r)] 0 (some t) = true ↔ r ∈ lowTierRoles)) ∧
    (∀ (r : Role) (t : ℚ), 1000 ≤ t →
      (can_approve_pr [(0, r)] 0 (some t) = true ↔ r ∈ highTierRoles)) ∧
    can_approve_pr [(0, Role.ops)] 0 (some (99999 / 100)) = true ∧
    can_approve_pr [(0, Role.ops)] 0 (some 1000) = false ∧
    can_approve_pr [(0, Role.executive)] 0 (some 1000) = true := by
  have h1 : ¬ ((99999 / 100 : ℚ) ≥ 1000) := by norm_num
  have h2 : ((1000 : ℚ) ≥ 1000) := le_refl _
  refine ⟨?_, ?_,
    by simp [can_approve_pr, lookupRole, get_pr_approval_threshold, h1],
    by simp [can_approve_pr, lookupRole, get_pr_approval_threshold, h2],
    by simp [can_approve_pr, lookupRole, get_pr_approval_threshold, h2]⟩
  · intro r t ht
    have hcond : ¬ ((some t).getD 0 ≥ get_pr_approval_threshold) := by
      simp only [Option.getD_some, get_pr_approval_threshold]
      exact not_le.mpr ht
    simp only [can_approve_pr, lookupRole, if_pos rfl, hcond, if_false]
    cases r <;> simp [lowTierRoles]
  · intro r t ht
    have hcond : (some t).getD 0 ≥ get_pr_approval_threshold := by
      simpa [get_pr_approval_threshold] using ht
    simp only [can_approve_pr, lookupRole, if_pos rfl, hcond, if_true]
    cases r <;> simp [highTierRoles]

/-- Claim C1 witness: the amended tier characterisation evaluated at the
concrete inputs 500 (below threshold) and 2500 (above threshold). -/
theorem c1_can_approve_pr_tiers_witness :
    (can_approve_pr [(0, Role.ops)] 0 (some 500) = true ↔
      Role.ops ∈ lowTierRoles) ∧
    (can_approve_pr [(0, Role.purchasing)] 0 (some 2500) = true ↔
      Role.purchasing ∈ highTierRoles) :=
  ⟨c1_can_approve_pr_tiers.1 Role.ops 500 (by norm_num),
   c1_can_approve_pr_tiers.2.1 Role.purchasing 2500 (by norm_num)⟩

theorem lookupSeq_setSeq_self (cs : List (Nat × Nat)) (y v : Nat)
    (h : (lookupSeq cs y).isSome) : lookupSeq (setSeq cs y v) y = some v := by
  induction cs with
  | nil => simp [lookupSeq] at h
  | cons p rest ih =>
    obtain ⟨a, b⟩ := p
    by_cases hy : y = a
    · subst hy
      simp [lookupSeq, setSeq]
    · simp only [lookupSeq, setSeq, if_neg hy] at h ⊢
      exact ih h

theorem lookupSeq_append_single (cs : List (Nat × Nat)) (y v : Nat)
    (h : lookupSeq cs y = none) :
    lookupSeq (cs ++ [(y, v)]) y = some v := by
  induction cs with
  | nil => simp [lookupSeq]
  | cons p rest ih =>
    obtain ⟨a, b⟩ := p
    by_cases hy : y = a
    · subst hy; simp [lookupSeq] at h
    · simp only [lookupSeq, if_neg hy, List.cons_append] at h ⊢
      exact ih h

theorem natDigitsAux_len_le (k : Nat) :
    ∀ fuel n, n < fuel → 1 ≤ k → n < 10 ^ k →
      (natDigitsAux fuel n).length ≤ k := by
  induction k with
  | zero => intro fuel n _ hk _; omega
  | succ k ih =>
    intro fuel n hfuel _ hbound
    match fuel with
    | 0 => omega
    | fuel + 1 =>
      by_cases hsmall : n < 10
      · simp [natDigitsAux, hsmall]
      · simp only [natDigitsAux, if_neg hsmall, List.length_append,
          List.length_singleton]
        have hk1 : 1 ≤ k := by
          by_contra hk0
          have : k = 0 := by omega
          subst this
          simp at hbound; omega
        have hdiv : n / 10 < 10 ^ k := by
          have h10 : 10 ^ (k + 1) = 10 ^ k * 10 := by ring
          rw [h10] at hbound
          exact Nat.div_lt_of_lt_mul (by omega)
        have hdivfuel : n / 10 < fuel := by
          have : n / 10 < n := Nat.div_lt_self (by omega) (by omega)
          omega
        have := ih fuel (n / 10) hdivfuel hk1 hdiv
        omega

theorem natChars_len_le_four (n : Nat) (h : n ≤ 9999) :
    (natChars n).length ≤ 4 :=
  natDigitsAux_len_le 4 (n + 1) n (Nat.lt_succ_self n) (by omega) (by omega)

theorem lpadChars_eq_pad (l : List Char) (h : l.length ≤ 4) :
    lpadChars l 4 '0' = List.replicate (4 - l.length) '0' ++ l := by
  unfold lpadChars
  by_cases h4 : 4 ≤ l.length
  · have hlen : l.length = 4 := by omega
    rw [if_pos h4, hlen]
    simp [List.take_of_length_le (le_of_eq hlen)]
  · rw [if_neg h4]

/-- Claim C9: the PR numbering keys its counter by year: a call bumps the
year's counter by exactly one (so successive same-year calls yield
strictly increasing sequence values), a year with no counter row starts
at sequence 1, and the produced number is `PR-` ++ year ++ `-` ++ the
4-digit zero-padded sequence value, e.g. `PR-2024-0007`. -/
theorem c9_next_pr_number_spec :
    (∀ cs year, (next_pr_number cs year).seq =
      (lookupSeq cs year).getD 0 + 1) ∧
    (∀ cs year, lookupSeq (next_pr_number cs year).counters year =
      some (next_pr_number cs year).seq) ∧
    (∀ cs year,
      (next_pr_number (next_pr_number cs year).counters year).seq =
        (next_pr_number cs year).seq + 1) ∧
    (∀ cs year, lookupSeq cs year = none →
      (next_pr_number cs year).seq = 1) ∧
    (∀ cs year, (next_pr_number cs year).seq ≤ 9999 →
      (next_pr_number cs year).number =
        "PR-" ++ natStr year ++ "-" ++ zeroPad4 ((next_pr_number cs year).seq)) ∧
    (next_pr_number [(2024, 6)] 2024).number = "PR-2024-0007" ∧
    (next_pr_number [] 2024).number = "PR-2024-0001" := by
  have hseq : ∀ cs year, (next_pr_number cs year).seq =
      (lookupSeq cs year).getD 0 + 1 := by
    intro cs year
    unfold next_pr_number
    by_cases h : (lookupSeq cs year).isSome
    · simp [h]
    · rw [Option.not_isSome_iff_eq_none] at h
      simp [h, lookupSeq_append_single cs year 0 h]
  have hlook : ∀ cs year,
      lookupSeq (next_pr_number cs year).counters year =
        some (next_pr_number cs year).seq := by
    intro cs year
    unfold next_pr_number
    by_cases h : (lookupSeq cs year).isSome
    · simp only [h, if_true]
      exact lookupSeq_setSeq_self cs year _ h
    · rw [Option.not_isSome_iff_eq_none] at h
      simp only [h, Option.isSome_none, Bool.false_eq_true, if_false]
      have hins := lookupSeq_append_single cs year 0 h
      rw [hins]
      exact lookupSeq_setSeq_self _ year _ (by rw [hins]; rfl)
  refine ⟨hseq, hlook, ?_, ?_, ?_, by decide, by decide⟩
  · intro cs year
    rw [hseq (next_pr_number cs year).counters year, hlook cs year]
    rfl
  · intro cs year h
    rw [hseq cs year, h]
    rfl
  · intro cs year hle
    have hnum : (next_pr_number cs year).number =
        "PR-" ++ natStr year ++ "-" ++
          (lpadChars (natChars ((next_pr_number cs year).seq)) 4 '0').asString :=
      rfl
    rw [hnum, lpadChars_eq_pad _ (natChars_len_le_four _ hle)]
    rfl

/-- Claim C9 witness: the numbering specification applied at concrete
counter tables: a fresh 2024 counter yields sequence 1, and the counter
at 6 yields the zero-padded number for sequence 7. -/
theorem c9_next_pr_number_spec_witness :
    (next_pr_number [] 2024).seq = 1 ∧
    (next_pr_number [(2024, 6)] 2024).number =
      "PR-" ++ natStr 2024 ++ "-" ++ zeroPad4 ((next_pr_number [(2024, 6)] 2024).seq) :=
  ⟨c9_next_pr_number_spec.2.2.2.1 [] 2024 rfl,
   c9_next_pr_number_spec.2.2.2.2.1 [(2024, 6)] 2024 (by decide)⟩

/-- Claim C8 (amended): through the final `submit_purchase_request`
(migration 0009), calling submit on a PR already in status submitted is
an idempotent no-op: the whole state (PR row and status log) is returned
unchanged and no error is raised. (The frontend entry point
`rpc_pr_submit` instead raises on a submitted PR; see the
counterexample.) -/
theorem c8_resubmit_idempotent_noop (db : PrDb) (p_actor_id now : Nat)
    (p_message : Option String)
    (hact : actorExists db.profiles p_actor_id = true)
    (hs : db.pr.status = .submitted) :
    submit_purchase_request db p_actor_id now p_message = .ok db := by
  simp [submit_purchase_request, hact, hs]

/-- Claim C8 witness: the no-op evaluated on a concrete submitted PR. -/
theorem c8_resubmit_idempotent_noop_witness :
    submit_purchase_request
      { profiles := [(3, Role.pm)], counters := [],
        pr := { pr_number := "PR-2024-0001", status := .submitted,
                project_id := 1, requested_by := some 3,
                approved_by := none, approved_at := none,
                needed_by_date := none, priority := none, notes := none,
                updated_by := some 3, updated_at := some 1 },
        lines := [], logs := [], next_line_id := 0 } 3 9 none =
    .ok { profiles := [(3, Role.pm)], counters := [],
          pr := { pr_number := "PR-2024-0001", status := .submitted,
                  project_id := 1, requested_by := some 3,
                  approved_by := none, approved_at := none,
                  needed_by_date := none, priority := none, notes := none,
                  updated_by := some 3, updated_at := some 1 },
          lines := [], logs := [], next_line_id := 0 } :=
  c8_resubmit_idempotent_noop _ 3 9 none (by decide) (by decide)

/-- The concrete state for the C8 counterexample: a submitted
second-generation PR with one line, owned by user 2. -/
def c8CexDb : Pr2Db :=
  { pr := { id := 1, title := "Lumber PR", status := .submitted,
            created_by := 2, submitted_at := some 5, po_id := none,
            converted_at := none, converted_by := none },
    lines := [{ id := 10, item_name := "2x4", qty := 8, unit := none,
                unit_cost := 3, vendor_id := none, notes := none }],
    pos := [], po_lines := [], next_po_id := 0 }

/-- Claim C8 (counterexample): the claim says re-submitting a submitted
PR does not raise an error, but the `rpc_pr_submit` entry point raises
"Only draft PRs can be submitted" on a submitted PR. -/
theorem c8_rpc_pr_submit_raises_on_submitted :
    c8CexDb.pr.status = PrStatus.submitted ∧
    rpc_pr_submit c8CexDb 2 9 false =
      .error "Only draft PRs can be submitted" := by
  constructor
  · rfl
  · rfl

/-- The concrete state for the C4 counterexample: a draft PR of the
0005-0009 schema with zero lines. -/
def c4CexDb : PrDb :=
  { profiles := [(3, Role.pm)], counters := [],
    pr := { pr_number := "PR-2024-0002", status := .draft,
            project_id := 1, requested_by := some 3, approved_by := none,
            approved_at := none, needed_by_date := none, priority := none,
            notes := none, updated_by := some 3, updated_at := some 1 },
    lines := [], logs := [], next_line_id := 0 }

/-- Claim C4 (counterexample): the claim says submitting a draft PR with
zero active lines fails with a validation error, but the final
`submit_purchase_request` (migration 0009) has no line check: on a draft
PR with no lines it succeeds and transitions to submitted. -/
theorem c4_submit_without_lines_succeeds :
    c4CexDb.pr.status = PrStatus.draft ∧ c4CexDb.lines = [] ∧
    (exceptOk (submit_purchase_request c4CexDb 3 2 none)).map
      (fun s => s.pr.status) = some PrStatus.submitted := by
  refine ⟨rfl, rfl, ?_⟩
  rfl

/-- Claim C4 (amended): the line-count requirement lives in the other
two submit variants: `rpc_pr_submit` (migration 0017) fails with "Add at
least one line before submitting" on a draft PR with zero lines and
succeeds (setting submitted/submitted_at) with at least one line, and
`submit_purchase_request` of migration 0005 fails with "Cannot submit PR
with zero lines" when the PR has no active line. The final
`submit_purchase_request` (migration 0009) performs no line check. -/
theorem c4_submit_requires_line (db : Pr2Db) (uid now : Nat)
    (is_admin : Bool) (hdraft : db.pr.status = .draft)
    (hperm : db.pr.created_by = uid ∨ is_admin = true) :
    (db.lines = [] →
      rpc_pr_submit db uid now is_admin =
        .error "Add at least one line before submitting") ∧
    (db.lines ≠ [] →
      rpc_pr_submit db uid now is_admin =
        .ok { db with pr :=
          { db.pr with
            status := .submitted
            submitted_at := some now } }) ∧
    (∀ (db2 : PrDb) (actor now2 : Nat) (msg : Option String),
      actorExists db2.profiles actor = true → db2.pr.status = .draft →
      (db2.lines.filter (fun l => l.is_active)).length = 0 →
      submit_purchase_request_0005 db2 actor now2 msg =
        .error "Cannot submit PR with zero lines") := by
  have hp : ¬ (db.pr.created_by ≠ uid ∧ ¬ is_admin = true) := by
    rcases hperm with h | h
    · intro hc; exact hc.1 h
    · intro hc; exact hc.2 h
  refine ⟨?_, ?_, ?_⟩
  · intro hnil
    simp only [rpc_pr_submit, hdraft, hnil]
    simp
    intro hne
    rcases hperm with h | h
    · exact absurd h hne
    · exact h
  · intro hne
    have hlen : ¬ db.lines.length < 1 := by
      have := List.length_pos.mpr hne
      omega
    simp only [rpc_pr_submit, hdraft]
    simp [hlen]
    intro hne2
    rcases hperm with h | h
    · exact absurd h hne2
    · exact h
  · intro db2 actor now2 msg hact hdraft2 hzero
    simp [submit_purchase_request_0005, hact, hdraft2, hzero]

/-- Claim C4 witness: the amended submit contract evaluated at a
concrete draft PR without lines and at one with a line. -/
theorem c4_submit_requires_line_witness :
    rpc_pr_submit
      { pr := { id := 1, title := "T", status := .draft, created_by := 2,
                submitted_at := none, po_id := none, converted_at := none,
                converted_by := none },
        lines := [], pos := [], po_lines := [], next_po_id := 0 } 2 9 false =
      .error "Add at least one line before submitting" :=
  (c4_submit_requires_line _ 2 9 false rfl (Or.inl rfl)).1 rfl

theorem applyLineResetIfApproved_approved (db : PrDb) (a now : Nat) :
    applyLineResetIfApproved .approved db a now =
      appendLog { db with pr := resetApproval db.pr a now } lineResetLog := by
  simp [applyLineResetIfApproved]

/-- Claim C2: on a PR in status approved, a successful line upsert (and
a successful header update with a supplied field that differs from the
stored one) puts the PR back to submitted, clears
`approved_by`/`approved_at`, and appends exactly one additional audit
entry documenting the approval reset. -/
theorem c2_edit_resets_approval :
    (∀ (db : PrDb) (a now : Nat) (pid cat : Option Nat)
       (desc : Option String) (qty : Option ℚ) (uom : Option String)
       (euc : Option ℚ) (sov tl : Option Nat) (so : Option Int)
       (ia : Option Bool) (db' : PrDb),
      db.pr.status = .approved →
      upsert_purchase_request_line db a now pid cat desc qty uom euc
        sov tl so ia = .ok db' →
      db'.pr.status = .submitted ∧ db'.pr.approved_by = none ∧
        db'.pr.approved_at = none ∧
        db'.logs.count lineResetLog = db.logs.count lineResetLog + 1) ∧
    (∀ (db : PrDb) (a now : Nat) (nbd : Option Nat)
       (pri nts : Option String) (db' : PrDb),
      db.pr.status = .approved →
      ((nbd.isSome = true ∧ nbd ≠ db.pr.needed_by_date) ∨
       (pri.isSome = true ∧ pri ≠ db.pr.priority) ∨
       (nts.isSome = true ∧ nts ≠ db.pr.notes)) →
      update_purchase_request_header db a now nbd pri nts = .ok db' →
      db'.pr.status = .submitted ∧ db'.pr.approved_by = none ∧
        db'.pr.approved_at = none ∧
        db'.logs.count headerResetLog = db.logs.count headerResetLog + 1) := by
  constructor
  · intro db a now pid cat desc qty uom euc sov tl so ia db' happr h
    unfold upsert_purchase_request_line at h
    rw [happr] at h
    repeat' split at h
    all_goals try exact Except.noConfusion h
    all_goals {
      injection h with h
      subst h
      rw [applyLineResetIfApproved_approved]
      refine ⟨rfl, rfl, rfl, ?_⟩
      simp only [appendLog, List.append_assoc, List.count_append]
      have h1 : List.count lineResetLog [lineUpdatedLog] = 0 := by decide
      have h2 : List.count lineResetLog [lineCreatedLog] = 0 := by decide
      have h3 : List.count lineResetLog [lineResetLog] = 1 := by decide
      omega
    }
  · intro db a now nbd pri nts db' happr hch h
    have hv : headerChanged db nbd pri nts = true := by
      simp only [headerChanged, Bool.or_eq_true, Bool.and_eq_true,
        decide_eq_true_eq]
      tauto
    unfold update_purchase_request_header at h
    rw [happr] at h
    split at h
    · exact Except.noConfusion h
    split at h
    · exact Except.noConfusion h
    split at h
    · injection h with h
      subst h
      refine ⟨rfl, rfl, rfl, ?_⟩
      simp only [appendLog, List.append_assoc, List.count_append]
      have h1 : List.count headerResetLog [headerResetLog] = 1 := by decide
      have h2 : List.count headerResetLog [headerUpdatedLog] = 0 := by decide
      omega
    · exfalso
      apply ‹¬ (PrStatus.approved = PrStatus.approved ∧
        headerChanged db nbd pri nts = true)›
      exact ⟨rfl, hv⟩

/-- Claim C2 witness: the approval-reset contract evaluated on a
concrete approved PR, for a line insert and for a header change. -/
theorem c2_edit_resets_approval_witness :
    (c2LineResult.pr.status = PrStatus.submitted ∧
      c2LineResult.pr.approved_by = none ∧
      c2LineResult.pr.approved_at = none ∧
      c2LineResult.logs.count lineResetLog =
        c2WitnessDb.logs.count lineResetLog + 1) ∧
    (c2HeaderResult.pr.status = PrStatus.submitted ∧
      c2HeaderResult.pr.approved_by = none ∧
      c2HeaderResult.pr.approved_at = none ∧
      c2HeaderResult.logs.count headerResetLog =
        c2WitnessDb.logs.count headerResetLog + 1) :=
  ⟨c2_edit_resets_approval.1 c2WitnessDb 9 5 none none (some "bolts")
      (some 3) none none none none (some 0) (some true) c2LineResult rfl rfl,
   c2_edit_resets_approval.2 c2WitnessDb 9 5 (some 12) none none
      c2HeaderResult rfl (Or.inl ⟨rfl, by decide⟩) rfl⟩

/-- Claim C3 (counterexample): the claim says every lifecycle operation
keeps `approved_by` non-null iff `status = approved`; but the legacy
combined approve/reject RPC of migration 0005, called with
`p_approve = false` on a submitted PR, produces `status = rejected`
together with a non-null `approved_by`/`approved_at`. -/
theorem c3_legacy_reject_breaks_invariant :
    prApprovalInvariant c3CexDb.pr ∧
    (exceptOk (approve_purchase_request_0005 c3CexDb 4 10 false none)).isSome
      = true ∧
    ((exceptOk (approve_purchase_request_0005 c3CexDb 4 10 false none)).getD
        c3CexDb).pr.status = PrStatus.rejected ∧
    ¬ prApprovalInvariant
      ((exceptOk (approve_purchase_request_0005 c3CexDb 4 10 false none)).getD
        c3CexDb).pr := by
  refine ⟨⟨by decide, by decide⟩, rfl, rfl, ?_⟩
  intro hinv
  have h := hinv.1.mp (by decide)
  exact absurd h (by decide)

/-- Claim C3 (amended): the approval-field invariant (`approved_by`
non-null iff `status = approved`; `approved_by`/`approved_at` set and
cleared together) is established by create and preserved by submit,
approve, reject, header update and line upsert of the final
migration-0009 RPC family. (The superseded migration-0005 combined
approve/reject RPC violates it on its reject path.) -/
theorem c3_invariant_preserved_by_final_ops :
    (∀ (profiles : List (Nat × Role)) (counters : List (Nat × Nat))
       (proj : Option Nat) (a now year : Nat) (nbd : Option Nat)
       (pri nts : Option String) (db' : PrDb),
      create_purchase_request profiles counters proj a now year nbd pri nts =
        .ok db' → prApprovalInvariant db'.pr) ∧
    (∀ (db : PrDb) (a now : Nat) (msg : Option String) (db' : PrDb),
      prApprovalInvariant db.pr →
      submit_purchase_request db a now msg = .ok db' →
      prApprovalInvariant db'.pr) ∧
    (∀ (db : PrDb) (a now : Nat) (msg : Option String) (db' : PrDb),
      approve_purchase_request db a now msg = .ok db' →
      prApprovalInvariant db'.pr) ∧
    (∀ (db : PrDb) (a now : Nat) (msg : Option String) (db' : PrDb),
      reject_purchase_request db a now msg = .ok db' →
      prApprovalInvariant db'.pr) ∧
    (∀ (db : PrDb) (a now : Nat) (nbd : Option Nat) (pri nts : Option String)
       (db' : PrDb),
      prApprovalInvariant db.pr →
      update_purchase_request_header db a now nbd pri nts = .ok db' →
      prApprovalInvariant db'.pr) ∧
    (∀ (db : PrDb) (a now : Nat) (pid cat : Option Nat)
       (desc : Option String) (qty : Option ℚ) (uom : Option String)
       (euc : Option ℚ) (sov tl : Option Nat) (so : Option Int)
       (ia : Option Bool) (db' : PrDb),
      prApprovalInvariant db.pr →
      upsert_purchase_request_line db a now pid cat desc qty uom euc sov tl
        so ia = .ok db' → prApprovalInvariant db'.pr) := by
  refine ⟨?_, ?_, ?_, ?_, ?_, ?_⟩
  · intro profiles counters proj a now year nbd pri nts db' h
    unfold create_purchase_request at h
    repeat' split at h
    all_goals try exact Except.noConfusion h
    injection h with h
    subst h
    simp [prApprovalInvariant]
  · intro db a now msg db' hinv h
    unfold submit_purchase_request at h
    split at h
    · exact Except.noConfusion h
    split at h
    · injection h with h
      subst h
      have hdraft : db.pr.status = PrStatus.draft := by assumption
      have hb : db.pr.approved_by = none := by
        by_contra hne
        have := hinv.1.mp hne
        rw [hdraft] at this
        exact PrStatus.noConfusion this
      have ha : db.pr.approved_at = none := hinv.2.mp hb
      simp [prApprovalInvariant, appendLog, hb, ha]
    split at h
    · injection h with h
      subst h
      exact hinv
    · exact Except.noConfusion h
  · intro db a now msg db' h
    unfold approve_purchase_request at h
    repeat' split at h
    all_goals try exact Except.noConfusion h
    injection h with h
    subst h
    simp [prApprovalInvariant, appendLog]
  · intro db a now msg db' h
    unfold reject_purchase_request at h
    repeat' split at h
    all_goals try exact Except.noConfusion h
    injection h with h
    subst h
    simp [prApprovalInvariant, appendLog]
  · intro db a now nbd pri nts db' hinv h
    unfold update_purchase_request_header at h
    repeat' split at h
    all_goals try exact Except.noConfusion h
    all_goals injection h with h
    all_goals subst h
    · simp [prApprovalInvariant, appendLog, resetApproval, headerUpdatedPr]
    · simpa [prApprovalInvariant, appendLog, headerUpdatedPr] using hinv
  · intro db a now pid cat desc qty uom euc sov tl so ia db' hinv h
    unfold upsert_purchase_request_line at h
    repeat' split at h
    all_goals try exact Except.noConfusion h
    all_goals injection h with h
    all_goals subst h
    all_goals by_cases happ : db.pr.status = PrStatus.approved
    all_goals try {
      rw [happ, applyLineResetIfApproved_approved]
      simp [prApprovalInvariant, appendLog, resetApproval]
    }
    all_goals {
      simp only [applyLineResetIfApproved, happ, if_false, appendLog]
      simpa [prApprovalInvariant] using hinv
    }

/-- Claim C3 witness: the invariant established by approving and then
preserved when rejecting a concrete PR through the final RPCs. -/
theorem c3_invariant_preserved_witness :
    prApprovalInvariant
      ((exceptOk (approve_purchase_request c3WitnessDb 4 10 none)).getD
        c3WitnessDb).pr ∧
    prApprovalInvariant
      ((exceptOk (reject_purchase_request c3WitnessDb 4 10 none)).getD
        c3WitnessDb).pr :=
  ⟨c3_invariant_preserved_by_final_ops.2.2.1 c3WitnessDb 4 10 none _ rfl,
   c3_invariant_preserved_by_final_ops.2.2.2.1 c3WitnessDb 4 10 none _ rfl⟩

theorem applyLineResetIfApproved_lines (s : PrStatus) (db : PrDb)
    (a now : Nat) : (applyLineResetIfApproved s db a now).lines = db.lines := by
  unfold applyLineResetIfApproved
  split <;> rfl

/-- Claim C10 (counterexample): the claim says a nullable field can never
be cleared to null through the partial-update operations, but the line
upsert assigns `est_unit_cost` directly from the parameter: updating the
stored line (est_unit_cost = 5) with a null `p_est_unit_cost` clears it
to null. -/
theorem c10_upsert_clears_est_unit_cost :
    c10CexDb.lines.map (fun l => l.est_unit_cost) = [some 5] ∧
    ((exceptOk (upsert_purchase_request_line c10CexDb 3 2 (some 1) none
        (some "pipe") (some 2) (some "ea") none none none (some 0)
        (some true))).getD c10CexDb).lines.map (fun l => l.est_unit_cost) =
      [none] := by
  exact ⟨rfl, rfl⟩

/-- Claim C10 (amended): for `update_purchase_request_header`, a null
parameter leaves the stored `needed_by_date`/`priority`/`notes`
unchanged, whatever their stored values, so these fields cannot be
cleared there. The line upsert, however, coalesces only `sort_order` and
`is_active` (and rejects a null qty): a null `est_unit_cost` overwrites
the stored value with null, so that nullable field IS cleared. -/
theorem c10_null_param_semantics :
    (∀ (db : PrDb) (a now : Nat) (nbd : Option Nat)
       (pri nts : Option String) (db' : PrDb),
      update_purchase_request_header db a now nbd pri nts = .ok db' →
      (nbd = none → db'.pr.needed_by_date = db.pr.needed_by_date) ∧
      (pri = none → db'.pr.priority = db.pr.priority) ∧
      (nts = none → db'.pr.notes = db.pr.notes)) ∧
    (∀ (db : PrDb) (a now i : Nat) (cat : Option Nat) (d : String) (q : ℚ)
       (uom : Option String) (sov tl : Option Nat) (so : Option Int)
       (ia : Option Bool) (db' : PrDb),
      lineExistsFor db.lines (some i) = true →
      upsert_purchase_request_line db a now (some i) cat (some d) (some q)
        uom none sov tl so ia = .ok db' →
      ∀ l' ∈ db'.lines, l'.id = i → l'.est_unit_cost = none) := by
  constructor
  · intro db a now nbd pri nts db' h
    unfold update_purchase_request_header at h
    repeat' split at h
    all_goals try exact Except.noConfusion h
    all_goals injection h with h
    all_goals subst h
    all_goals refine ⟨?_, ?_, ?_⟩ <;> intro hnone <;> subst hnone <;> rfl
  · intro db a now i cat d q uom sov tl so ia db' hex h
    unfold upsert_purchase_request_line at h
    repeat' split at h
    all_goals try exact Except.noConfusion h
    all_goals injection h with h
    all_goals subst h
    · intro l' hl' hid
      rw [applyLineResetIfApproved_lines] at hl'
      simp only [appendLog] at hl'
      simp only [List.mem_map] at hl'
      obtain ⟨l, hl, rfl⟩ := hl'
      by_cases hg : (l.id == (some i).getD 0) = true
      · simp only [hg, if_true, updatedPrLine]
      · rw [if_neg hg] at hid ⊢
        simp only [Option.getD_some] at hg
        exact absurd (by exact decide_eq_true (by exact hid) : (l.id == i) = true)
          (by simpa using hg)

/-- Claim C10 witness: the null-parameter semantics at the concrete
state `c10CexDb`: a fully-null header update changes none of the three
fields, and the null-cost line upsert clears the stored cost. -/
theorem c10_null_param_semantics_witness :
    (((exceptOk (update_purchase_request_header c10CexDb 3 2 none none
        none)).getD c10CexDb).pr.needed_by_date = c10CexDb.pr.needed_by_date) ∧
    (∀ l' ∈ ((exceptOk (upsert_purchase_request_line c10CexDb 3 2 (some 1)
        none (some "pipe") (some 2) (some "ea") none none none (some 0)
        (some true))).getD c10CexDb).lines, l'.id = 1 →
      l'.est_unit_cost = none) :=
  ⟨((c10_null_param_semantics.1 c10CexDb 3 2 none none none _ rfl).1 rfl),
   c10_null_param_semantics.2 c10CexDb 3 2 1 none "pipe" 2 (some "ea") none
     none (some 0) (some true) _ (by decide) rfl⟩

/-- Claim C5: converting requires an approved, not-yet-converted PR:
a non-approved PR is rejected; after a successful conversion any second
conversion fails with "PR already converted to PO"; and the PO created
carries exactly one line per PR line, each referencing its source PR
line. -/
theorem c5_convert_requires_approved_once :
    (∀ (db : Pr2Db) (uid now : Nat) (adm appr : Bool) (v : Nat)
       (shp nts : Option String),
      (adm = true ∨ appr = true) → ¬ db.pr.status = .approved →
      rpc_pr_convert_to_po db uid now adm appr (some v) shp nts =
        .error "PR must be approved to convert to PO") ∧
    (∀ (db : Pr2Db) (uid now : Nat) (adm appr : Bool) (v : Nat)
       (shp nts : Option String) (poid : Nat) (db' : Pr2Db),
      (adm = true ∨ appr = true) →
      db.pr.status = .approved →
      db.pr.po_id = none →
      db.lines ≠ [] →
      (∀ pl ∈ db.po_lines, pl.po_id ≠ db.next_po_id) →
      rpc_pr_convert_to_po db uid now adm appr (some v) shp nts =
        .ok (poid, db') →
      (∀ (uid2 now2 : Nat) (adm2 appr2 : Bool) (v2 : Option Nat)
         (shp2 nts2 : Option String),
        (adm2 = true ∨ appr2 = true) →
        rpc_pr_convert_to_po db' uid2 now2 adm2 appr2 v2 shp2 nts2 =
          .error "PR already converted to PO") ∧
      (db'.po_lines.filter (fun pl => pl.po_id == poid)).length =
        db.lines.length ∧
      (db'.po_lines.filter (fun pl => pl.po_id == poid)).map
        (fun pl => pl.source_pr_line_id) =
        db.lines.map (fun l => some l.id)) := by
  constructor
  · intro db uid now adm appr v shp nts hr hn
    unfold rpc_pr_convert_to_po
    rw [if_neg (not_not_intro hr), if_pos hn]
  · intro db uid now adm appr v shp nts poid db' hr hst hpo hlines hfresh h
    have hlen : ¬ db.lines.length < 1 := by
      have := List.length_pos.mpr hlines
      omega
    unfold rpc_pr_convert_to_po at h
    rw [if_neg (not_not_intro hr), if_neg (not_not_intro hst),
      if_neg (not_not_intro hpo)] at h
    dsimp only at h
    rw [if_neg hlen] at h
    rw [Except.ok.injEq, Prod.mk.injEq] at h
    obtain ⟨hpoid, hdb⟩ := h
    subst hpoid
    subst hdb
    refine ⟨?_, ?_, ?_⟩
    · intro uid2 now2 adm2 appr2 v2 shp2 nts2 hr2
      unfold rpc_pr_convert_to_po
      rw [if_neg (not_not_intro hr2), if_neg (not_not_intro (by simp [hst])),
        if_pos (by simp)]
    · rw [List.filter_append]
      have h1 : db.po_lines.filter (fun pl => pl.po_id == db.next_po_id) =
          [] := by
        rw [List.filter_eq_nil_iff]
        intro pl hpl
        simpa using hfresh pl hpl
      have h2 : (db.lines.map (fun l =>
          ({ po_id := db.next_po_id, item_name := l.item_name, qty := l.qty,
             unit := l.unit, unit_cost := l.unit_cost, notes := l.notes,
             source_pr_line_id := some l.id } : PoLine))).filter
            (fun pl => pl.po_id == db.next_po_id) =
          db.lines.map (fun l =>
          ({ po_id := db.next_po_id, item_name := l.item_name, qty := l.qty,
             unit := l.unit, unit_cost := l.unit_cost, notes := l.notes,
             source_pr_line_id := some l.id } : PoLine)) := by
        rw [List.filter_eq_self]
        intro pl hpl
        obtain ⟨l, _, rfl⟩ := List.mem_map.mp hpl
        simp
      rw [h1, h2]
      simp
    · rw [List.filter_append]
      have h1 : db.po_lines.filter (fun pl => pl.po_id == db.next_po_id) =
          [] := by
        rw [List.filter_eq_nil_iff]
        intro pl hpl
        simpa using hfresh pl hpl
      have h2 : (db.lines.map (fun l =>
          ({ po_id := db.next_po_id, item_name := l.item_name, qty := l.qty,
             unit := l.unit, unit_cost := l.unit_cost, notes := l.notes,
             source_pr_line_id := some l.id } : PoLine))).filter
            (fun pl => pl.po_id == db.next_po_id) =
          db.lines.map (fun l =>
          ({ po_id := db.next_po_id, item_name := l.item_name, qty := l.qty,
             unit := l.unit, unit_cost := l.unit_cost, notes := l.notes,
             source_pr_line_id := some l.id } : PoLine)) := by
        rw [List.filter_eq_self]
        intro pl hpl
        obtain ⟨l, _, rfl⟩ := List.mem_map.mp hpl
        simp
      rw [h1, h2]
      simp [List.map_map]

/-- Claim C5 witness: converting the concrete approved PR succeeds, a
second conversion conflicts, and the two PO lines reference the two PR
lines. -/
theorem c5_convert_requires_approved_once_witness :
    rpc_pr_convert_to_po c5Converted.2 5 11 true false none none none =
      .error "PR already converted to PO" ∧
    (c5Converted.2.po_lines.filter
      (fun pl => pl.po_id == c5Converted.1)).length =
      c5WitnessDb.lines.length ∧
    (c5Converted.2.po_lines.filter
      (fun pl => pl.po_id == c5Converted.1)).map
      (fun pl => pl.source_pr_line_id) =
      c5WitnessDb.lines.map (fun l => some l.id) := by
  have H := c5_convert_requires_approved_once.2 c5WitnessDb 4 10 true false
    7 none none c5Converted.1 c5Converted.2 (Or.inl rfl) rfl rfl
    (by decide) (by intro pl hpl; simp [c5WitnessDb] at hpl) rfl
  exact ⟨H.1 5 11 true false none none none (Or.inl rfl), H.2.1, H.2.2⟩

/-- Claim C7 (counterexample): the claim says `received_at`/`received_by`
are stamped only on the first transition into received and never
overwritten and not set before that transition; but (a) calling
`mark_receipt_received` again on an already-stamped receipt overwrites
both stamps, and (b) `create_receipt` (migration 0007) pre-populates
`received_by` on the freshly created pending receipt. -/
theorem c7_received_stamps_overwritten :
    c7CexDb.r.received_by = some 1 ∧ c7CexDb.r.received_at = some 10 ∧
    ((exceptOk (mark_receipt_received c7CexDb 2 2 20 none)).getD
      c7CexDb).r.received_by = some 2 ∧
    ((exceptOk (mark_receipt_received c7CexDb 2 2 20 none)).getD
      c7CexDb).r.received_at = some 20 ∧
    ((exceptOk (create_receipt_0007 [(2, Role.shop)] 2 2
      "RCV-20240101-00003" none none)).getD c7CexDb).r.status =
      ReceiptStatus.pending ∧
    ((exceptOk (create_receipt_0007 [(2, Role.shop)] 2 2
      "RCV-20240101-00003" none none)).getD c7CexDb).r.received_by =
      some 2 := by
  exact ⟨rfl, rfl, rfl, rfl, rfl, rfl⟩

/-- Claim C7 (amended): `mark_receipt_received` counts the receipt's
unlinked lines and sets status received when any remain, reconciled when
none; but it assigns `received_at := now` and `received_by := actor`
unconditionally on every successful call, overwriting earlier stamps.
First-transition-only stamping is the behaviour of the generic
`set_receipt_status` of migration 0005, which keeps an existing
`received_at`/`received_by` and fills them only when still null. -/
theorem c7_mark_received_spec :
    (∀ (db : ReceiptDb) (uid a now : Nat) (msg : Option String)
       (db' : ReceiptDb),
      actorExists db.profiles a = true →
      can_receive (lookupRole db.profiles uid) = true →
      ¬ db.r.status = .cancelled →
      mark_receipt_received db uid a now msg = .ok db' →
      db'.r.status = (if countUnlinked db.lines > 0 then
        ReceiptStatus.received else ReceiptStatus.reconciled) ∧
      db'.r.received_at = some now ∧ db'.r.received_by = some a) ∧
    (∀ (db : ReceiptDb) (s : ReceiptStatus) (a now t : Nat)
       (msg : Option String) (db' : ReceiptDb),
      actorExists db.profiles a = true →
      set_receipt_status db s a now msg = .ok db' →
      (db.r.received_at = some t → db'.r.received_at = some t) ∧
      (s = .received → db.r.received_at = none →
        db'.r.received_at = some now)) := by
  constructor
  · intro db uid a now msg db' hact hrecv hnc h
    unfold mark_receipt_received at h
    rw [if_neg (by simp [hact]), if_neg (by simp [hrecv]), if_neg hnc] at h
    injection h with h
    subst h
    exact ⟨rfl, rfl, rfl⟩
  · intro db s a now t msg db' hact h
    unfold set_receipt_status at h
    rw [if_neg (by simp [hact])] at h
    injection h with h
    subst h
    constructor
    · intro hat
      simp [hat]
    · intro hs hat
      simp [hs, hat]

/-- Claim C7 witness: the mark-received contract on a pending receipt
with one unlinked line (it becomes received and is stamped), and the
first-transition-only stamping of `set_receipt_status` on the
already-stamped receipt. -/
theorem c7_mark_received_spec_witness :
    (((exceptOk (mark_receipt_received c7WitnessDb 2 2 30 none)).getD
        c7WitnessDb).r.status = (if countUnlinked c7WitnessDb.lines > 0 then
        ReceiptStatus.received else ReceiptStatus.reconciled) ∧
      ((exceptOk (mark_receipt_received c7WitnessDb 2 2 30 none)).getD
        c7WitnessDb).r.received_at = some 30 ∧
      ((exceptOk (mark_receipt_received c7WitnessDb 2 2 30 none)).getD
        c7WitnessDb).r.received_by = some 2) ∧
    (((exceptOk (set_receipt_status c7CexDb .received 2 20 none)).getD
        c7CexDb).r.received_at = some 10) :=
  ⟨c7_mark_received_spec.1 c7WitnessDb 2 2 30 none _ (by decide) (by decide)
      (by decide) rfl,
   (c7_mark_received_spec.2 c7CexDb .received 2 20 10 none _ (by decide)
      rfl).1 rfl⟩

/-- Claim C6: the coverage computation ignores lines on cancelled
receipts, `qty_open_remaining` is the ordered quantity minus the
non-cancelled received total clamped at zero, coverage is `partial` for
0 < received < ordered and `received` for received ≥ ordered > 0; on the
spec's example, ordering 10 with one non-cancelled receipt of 4 is
partial with 6 remaining, adding another 6 makes it received with 0
remaining, and a line on a cancelled receipt contributes nothing. -/
theorem c6_coverage_spec :
    (∀ (rl : CoverageReceiptLine) (rls : List CoverageReceiptLine),
      rl.receipt_status = .cancelled →
      qty_received_total (rl :: rls) = qty_received_total rls) ∧
    (∀ (qty : Option ℚ) (rls : List CoverageReceiptLine),
      qty_open_remaining qty rls =
        max (qty.getD 0 - qty_received_total rls) 0) ∧
    (∀ (qty : Option ℚ) (rls : List CoverageReceiptLine),
      0 < qty_received_total rls → qty_received_total rls < qty.getD 0 →
      receipt_coverage qty rls = "partial") ∧
    (∀ (qty : Option ℚ) (rls : List CoverageReceiptLine),
      0 < qty.getD 0 → qty.getD 0 ≤ qty_received_total rls →
      receipt_coverage qty rls = "received") ∧
    (receipt_coverage (some 10) [⟨4, .received⟩] = "partial" ∧
      qty_open_remaining (some 10) [⟨4, .received⟩] = 6) ∧
    (receipt_coverage (some 10) [⟨4, .received⟩, ⟨6, .received⟩] =
        "received" ∧
      qty_open_remaining (some 10) [⟨4, .received⟩, ⟨6, .received⟩] = 0) ∧
    qty_received_total [⟨4, .received⟩, ⟨5, .cancelled⟩] =
      qty_received_total [⟨4, .received⟩] := by
  have hpartial : ∀ (qty : Option ℚ) (rls : List CoverageReceiptLine),
      0 < qty_received_total rls → qty_received_total rls < qty.getD 0 →
      receipt_coverage qty rls = "partial" := by
    intro qty rls h1 h2
    unfold receipt_coverage
    rw [if_neg (by linarith), if_neg (by linarith), if_pos h2]
  have hreceived : ∀ (qty : Option ℚ) (rls : List CoverageReceiptLine),
      0 < qty.getD 0 → qty.getD 0 ≤ qty_received_total rls →
      receipt_coverage qty rls = "received" := by
    intro qty rls h1 h2
    unfold receipt_coverage
    rw [if_neg (by linarith), if_neg (by linarith), if_neg (by linarith)]
  have t1 : qty_received_total [⟨4, .received⟩] = 4 := by
    simp [qty_received_total]
  have t2 : qty_received_total [⟨4, .received⟩, ⟨6, .received⟩] = 10 := by
    simp [qty_received_total]
    norm_num
  refine ⟨?_, fun qty rls => rfl, hpartial, hreceived, ⟨?_, ?_⟩, ⟨?_, ?_⟩,
    ?_⟩
  · intro rl rls hc
    simp [qty_received_total, hc]
  · exact hpartial (some 10) _ (by rw [t1]; norm_num)
      (by rw [t1]; norm_num)
  · show max ((some 10 : Option ℚ).getD 0 -
      qty_received_total [⟨4, .received⟩]) 0 = 6
    rw [t1]
    norm_num
  · exact hreceived (some 10) _ (by norm_num) (by rw [t2]; norm_num)
  · show max ((some 10 : Option ℚ).getD 0 -
      qty_received_total [⟨4, .received⟩, ⟨6, .received⟩]) 0 = 0
    rw [t2]
    norm_num
  · rw [t1]
    simp [qty_received_total]

/-- Claim C6 witness: the partial and received characterisations applied
to the spec's example quantities. -/
theorem c6_coverage_spec_witness :
    receipt_coverage (some 10) [⟨4, ReceiptStatus.received⟩] = "partial" ∧
    receipt_coverage (some 10)
      [⟨4, ReceiptStatus.received⟩, ⟨6, ReceiptStatus.received⟩] =
      "received" :=
  ⟨c6_coverage_spec.2.2.1 (some 10) [⟨4, .received⟩]
      (by simp [qty_received_total]) (by simp [qty_received_total]; norm_num),
   c6_coverage_spec.2.2.2.1 (some 10) [⟨4, .received⟩, ⟨6, .received⟩]
      (by norm_num) (by simp [qty_received_total]; norm_num)⟩
